import Mathlib

/-!
Shallow embedding of the i2cbus library (src/i2cbus.c, src/i2cbus.h).

The library serializes access to /dev/i2cX device files through a fixed
table of recursive pthread mutexes (`i2cbus_locks`, one per bus index,
`I2CBUS_MAX_NUM` entries) guarded by a use-count `i2clock_initd`.

Modelling choices:
- Machine integers (`int`, `ssize_t`) become `Int`; `unsigned long`
  becomes `Nat`.  No arithmetic in the source can overflow on the values
  the claims exercise, and none of the claims concerns wrap-around.
- The collaborator system calls (`open`, `ioctl`, `close`, `read`,
  `write`, `pthread_mutex_lock`, `usleep`) are modelled by parameters
  carrying the value each call returns, and every call the code performs
  is recorded in an event trace, so that properties such as "the read
  phase is never invoked" or "the lock is released" are statements about
  the trace of a call.
- The process-wide registry (`i2clock_initd` plus the mutex table) is an
  explicit state `RegState` threaded through `i2cbus_open` and
  `i2cbus_close`.  A mutex is modelled by its initialized flag and its
  recursion hold count (`hold = 0` means unlocked);
  `pthread_mutex_destroy` fails exactly when the mutex is still held.
-/

namespace I2C

/-- `I2CBUS_MAX_NUM` from i2cbus.c: maximum number of `/dev/i2cX` buses. -/
def I2CBUS_MAX_NUM : Nat := 2

/-- Observable actions performed by the library: mutex operations on a bus
slot, transport system calls, and the inter-phase sleep of `i2cbus_xfer`. -/
inductive Event where
  /-- a call to pthread_mutex_lock on the mutex of the given bus slot -/
  | lockBlocking : Nat → Event
  /-- a call to pthread_mutex_trylock on the mutex of the given bus slot -/
  | tryLockEv : Nat → Event
  /-- a call to pthread_mutex_unlock on the mutex of the given bus slot -/
  | unlockEv : Nat → Event
  /-- a call to write(fd, buf, len): fd and requested length -/
  | transportWrite : Int → Int → Event
  /-- a call to read(fd, buf, len): fd and requested length -/
  | transportRead : Int → Int → Event
  /-- a call to usleep with the given microsecond count -/
  | sleepEv : Nat → Event
  /-- a call to open("/dev/i2c-<id>", O_RDWR) followed by the I2C_SLAVE ioctl -/
  | transportOpenEv : Int → Int → Event
  /-- a call to close(fd) -/
  | transportCloseEv : Int → Event
  deriving DecidableEq, Repr

/-- The `i2cbus` struct of i2cbus.h: file descriptor, bus id, the bus slot
whose mutex `lock` points at (`lock = &i2cbus_locks[id]` after open), and
the context tag `ctx`. -/
structure i2cbus where
  fd : Int
  id : Int
  lockBus : Nat
  ctx : Int
  deriving DecidableEq, Repr

/-- A context value is a set/valid context when it lies in the
`i2cbus_ctxs` enum range `I2CBUS_CTX_0 = 0xa` .. `I2CBUS_CTX_9 = 0x13`. -/
def ctx_valid (c : Int) : Bool := 0xa ≤ c && c ≤ 0x13

/-- One pthread mutex of the `i2cbus_locks` table: whether it is
initialized and its recursive hold count (0 = unlocked). -/
structure Mutex where
  initialized : Bool
  hold : Nat
  deriving DecidableEq, Repr

/-- The process-wide registry: `i2clock_initd` and the mutex table. -/
structure RegState where
  initd : Int
  locks : List Mutex
  deriving DecidableEq, Repr

/-- Results of the collaborator calls made by one `i2cbus_write`,
`i2cbus_read` or `i2cbus_xfer` invocation: what `pthread_mutex_lock`
returns (0 = acquired) and what `write`/`read` return. -/
structure Transport where
  lockRet : Int
  writeRet : Int
  readRet : Int
  deriving DecidableEq, Repr

/-- Byte buffers are opaque payloads; a NULL pointer is `none`. -/
abbrev ByteBuf := List Nat

/-- Result of one `i2cbus_write`/`i2cbus_read`/`i2cbus_xfer` call: a
defined return value together with the event trace the call performed, or
undefined behavior.  The `dev == NULL` validation branch is undefined
behavior because its diagnostic eprintf evaluates `dev->fd` through the
NULL pointer (i2cbus.c lines 166, 196, 229) before the branch can return
-1; the crash happens in the diagnostic, before any mutex or transport
call, so the undefined outcome carries no trace. -/
inductive IOResult where
  /-- the call returns `ret` having performed exactly `trace` -/
  | ok : Int → List Event → IOResult
  /-- undefined behavior: the NULL-handle diagnostic dereferences dev->fd -/
  | nullDeref : IOResult
  deriving DecidableEq, Repr

/-- `i2cbus_write` (i2cbus.c lines 161-189): with `dev == NULL` the
diagnostic dereferences `dev->fd` (undefined behavior); otherwise validate
`dev->fd` and `buf`, block-acquire `dev->lock`, call
`write(dev->fd, buf, len)`, unlock, and return the byte count from `write`
(the `status != len` branch only emits a debug print and has no
behavioural effect). -/
def i2cbus_write (dev : Option i2cbus) (buf : Option ByteBuf) (len : Int)
    (T : Transport) : IOResult :=
  match dev with
  | none => IOResult.nullDeref
  | some d =>
    if d.fd < 0 then IOResult.ok (-1) []
    else
      match buf with
      | none => IOResult.ok (-1) []
      | some _ =>
        if T.lockRet ≠ 0 then IOResult.ok (-1) [Event.lockBlocking d.lockBus]
        else
          IOResult.ok T.writeRet
            [Event.lockBlocking d.lockBus, Event.transportWrite d.fd len,
             Event.unlockEv d.lockBus]

/-- `i2cbus_read` (i2cbus.c lines 191-219): same shape as `i2cbus_write`
with `read` in place of `write`, including the NULL-handle undefined
behavior in the diagnostic. -/
def i2cbus_read (dev : Option i2cbus) (buf : Option ByteBuf) (len : Int)
    (T : Transport) : IOResult :=
  match dev with
  | none => IOResult.nullDeref
  | some d =>
    if d.fd < 0 then IOResult.ok (-1) []
    else
      match buf with
      | none => IOResult.ok (-1) []
      | some _ =>
        if T.lockRet ≠ 0 then IOResult.ok (-1) [Event.lockBlocking d.lockBus]
        else
          IOResult.ok T.readRet
            [Event.lockBlocking d.lockBus, Event.transportRead d.fd len,
             Event.unlockEv d.lockBus]

/-- `i2cbus_xfer` (i2cbus.c lines 221-287): with `dev == NULL` the
diagnostic dereferences `dev->fd` (undefined behavior); otherwise validate
`dev->fd`, `outbuf`, `inbuf`; block-acquire the mutex;
`write(dev->fd, outbuf, outlen)`; if the count differs from `outlen`, goto
`ret` (unlock and return the count); otherwise `usleep(timeout_usec)` when
`timeout_usec > 0`, then `read(dev->fd, inbuf, inlen)`, unlock, and return
the read count (a short read also reaches the same `ret` label). -/
def i2cbus_xfer (dev : Option i2cbus) (outbuf : Option ByteBuf) (outlen : Int)
    (inbuf : Option ByteBuf) (inlen : Int) (timeout_usec : Nat)
    (T : Transport) : IOResult :=
  match dev with
  | none => IOResult.nullDeref
  | some d =>
    if d.fd < 0 then IOResult.ok (-1) []
    else
      match outbuf with
      | none => IOResult.ok (-1) []
      | some _ =>
        match inbuf with
        | none => IOResult.ok (-1) []
        | some _ =>
          if T.lockRet ≠ 0 then IOResult.ok (-1) [Event.lockBlocking d.lockBus]
          else
            if T.writeRet ≠ outlen then
              IOResult.ok T.writeRet
                [Event.lockBlocking d.lockBus,
                 Event.transportWrite d.fd outlen,
                 Event.unlockEv d.lockBus]
            else
              IOResult.ok T.readRet
                ([Event.lockBlocking d.lockBus,
                  Event.transportWrite d.fd outlen] ++
                 (if 0 < timeout_usec then [Event.sleepEv timeout_usec] else []) ++
                 [Event.transportRead d.fd inlen, Event.unlockEv d.lockBus])

/-- `i2cbus_lock` (i2cbus.c lines 289-300): takes a bus index (not a
handle); rejects an out-of-range index with -100, otherwise calls
`pthread_mutex_lock` and returns 1 on success or the negated error. -/
def i2cbus_lock (bus : Nat) (lockRet : Int) : Int × List Event :=
  if I2CBUS_MAX_NUM ≤ bus then (-100, [])
  else if lockRet ≠ 0 then (-lockRet, [Event.lockBlocking bus])
  else (1, [Event.lockBlocking bus])

/-- `i2cbus_trylock` (i2cbus.c lines 302-313): same shape with
`pthread_mutex_trylock`. -/
def i2cbus_trylock (bus : Nat) (tryRet : Int) : Int × List Event :=
  if I2CBUS_MAX_NUM ≤ bus then (-100, [])
  else if tryRet ≠ 0 then (-tryRet, [Event.tryLockEv bus])
  else (1, [Event.tryLockEv bus])

/-- `i2cbus_unlock` (i2cbus.c lines 315-326): same shape with
`pthread_mutex_unlock`. -/
def i2cbus_unlock (bus : Nat) (unlockRet : Int) : Int × List Event :=
  if I2CBUS_MAX_NUM ≤ bus then (-100, [])
  else if unlockRet ≠ 0 then (-unlockRet, [Event.unlockEv bus])
  else (1, [Event.unlockEv bus])

/-- Results of the collaborator calls made by one `i2cbus_open`
invocation: whether the mutexattr/mutex-init block succeeds, what
`open("/dev/i2c-<id>")` returns (negative = failure, with `openErrno` as
the errno the code reads but whose negation is discarded at the `err`
label), and whether the `I2C_SLAVE` ioctl succeeds. -/
structure OpenEnv where
  mutexInitOk : Bool
  openFd : Int
  openErrno : Nat
  ioctlOk : Bool
  ioctlErrno : Nat
  deriving DecidableEq, Repr

/-- `i2cbus_open` (i2cbus.c lines 36-122).  `i2clock_initd++` runs first;
when the pre-increment value was 0 the mutex table is initialized (all
mutexes recursive and unlocked).  Then the argument checks (NULL `dev`,
`id < I2CBUS_MAX_NUM`, `addr >= 8`), then the transport open and the
ioctl.  Every failure path goes to the `err` label, which decrements
`i2clock_initd` and returns -1 — the distinct internal codes (-3 NULL
dev, -4 bad id, -5 bad addr, -errno from open/ioctl) stored in `ret` are
discarded there.  On success `dev->id` and `dev->lock =
&i2cbus_locks[id]` are assigned (`dev->ctx` is NOT touched) and `dev->fd`
is returned; on ioctl failure the freshly opened fd is closed but the
stale `dev->fd` assignment remains. -/
def i2cbus_open (s : RegState) (dev : Option i2cbus) (id addr : Int)
    (env : OpenEnv) : RegState × Option i2cbus × Int × List Event :=
  if s.initd = 0 ∧ env.mutexInitOk = false then
    ({ s with initd := s.initd + 1 - 1 }, dev, -1, [])
  else
    let s2 : RegState :=
      if s.initd = 0 then
        { initd := s.initd + 1, locks := List.replicate I2CBUS_MAX_NUM ⟨true, 0⟩ }
      else { s with initd := s.initd + 1 }
    match dev with
    | none => ({ s2 with initd := s2.initd - 1 }, none, -1, [])
    | some d =>
      if ¬ (id < (I2CBUS_MAX_NUM : Int)) then
        ({ s2 with initd := s2.initd - 1 }, some d, -1, [])
      else if addr < 8 then
        ({ s2 with initd := s2.initd - 1 }, some d, -1, [])
      else if env.openFd < 0 then
        ({ s2 with initd := s2.initd - 1 }, some d, -1,
          [Event.transportOpenEv id addr])
      else
        let d1 : i2cbus := { d with fd := env.openFd }
        if env.ioctlOk = false then
          ({ s2 with initd := s2.initd - 1 }, some d1, -1,
            [Event.transportOpenEv id addr, Event.transportCloseEv env.openFd])
        else
          let d2 : i2cbus := { d1 with id := id, lockBus := id.toNat }
          (s2, some d2, env.openFd, [Event.transportOpenEv id addr])

/-- The `pthread_mutex_destroy` loop of `i2cbus_close`: destroys the
mutexes in index order; destroying fails exactly on a mutex that is still
held, and the loop returns immediately at the first failure, leaving that
mutex and the later ones untouched. -/
def destroyLoop : List Mutex → List Mutex × Bool
  | [] => ([], true)
  | m :: rest =>
    if 0 < m.hold then (m :: rest, false)
    else
      let r := destroyLoop rest
      (⟨false, 0⟩ :: r.1, r.2)

/-- The tail of `i2cbus_close` after the registry teardown block: NULL
`dev` returns -3; a handle with `fd > 0` is closed via the collaborator
(returning its result `closeRet`); otherwise the fall-through returns -1. -/
def i2cbus_close_dev (s : RegState) (dev : Option i2cbus) (closeRet : Int) :
    RegState × Int × List Event :=
  match dev with
  | some d =>
    if 0 < d.fd then (s, closeRet, [Event.transportCloseEv d.fd])
    else (s, -1, [])
  | none => (s, -3, [])

/-- `i2cbus_close` (i2cbus.c lines 124-151): `--i2clock_initd` runs
first; when the new value is 0 every mutex is destroyed in order, and a
destroy failure returns -1 at once (before the `dev` NULL check and
before the fd is closed).  Only then is `dev` validated and the fd
released. -/
def i2cbus_close (s : RegState) (dev : Option i2cbus) (closeRet : Int) :
    RegState × Int × List Event :=
  let s1 : RegState := { s with initd := s.initd - 1 }
  if s1.initd = 0 then
    let dl := destroyLoop s1.locks
    let s2 : RegState := { s1 with locks := dl.1 }
    if dl.2 = false then (s2, -1, [])
    else i2cbus_close_dev s2 dev closeRet
  else i2cbus_close_dev s1 dev closeRet

/-- One successful-open-then-close pair, reusing the handle produced by
the open, returning the final registry state. -/
def openClose (s : RegState) (d : i2cbus) (id addr : Int) (env : OpenEnv)
    (closeRet : Int) : RegState :=
  let o := i2cbus_open s (some d) id addr env
  (i2cbus_close o.1 o.2.1 closeRet).1

/-- `N` sequential open/close pairs. -/
def iterOpenClose (d : i2cbus) (id addr : Int) (env : OpenEnv)
    (closeRet : Int) : Nat → RegState → RegState
  | 0, s => s
  | n + 1, s => iterOpenClose d id addr env closeRet n (openClose s d id addr env closeRet)

/-- Whether a trace contains a `pthread_mutex_trylock` call. -/
def hasTry : List Event → Bool
  | [] => false
  | Event.tryLockEv _ :: _ => true
  | _ :: r => hasTry r

/-- Whether a call issued a `pthread_mutex_trylock`: on the undefined
path the crash happens in the diagnostic before any mutex call, so no
trylock is issued there either. -/
def issuesTry : IOResult → Bool
  | IOResult.ok _ tr => hasTry tr
  | IOResult.nullDeref => false

end I2C

namespace I2C

/-- Claim C2: in every transfer call whose transport write returns fewer
bytes than the requested output length, the read phase is never invoked
(no transportRead event occurs) and the BusSlot lock acquired by the call
is released before it returns (the trace is exactly lock, write, unlock,
and the short count is returned). -/
theorem c2_short_write_skips_read_releases_lock
    (d : i2cbus) (ob ib : ByteBuf) (outlen inlen : Int) (t : Nat)
    (T : Transport) (hfd : 0 ≤ d.fd) (hlock : T.lockRet = 0)
    (hshort : T.writeRet ≠ outlen) :
    i2cbus_xfer (some d) (some ob) outlen (some ib) inlen t T =
      IOResult.ok T.writeRet
        [Event.lockBlocking d.lockBus, Event.transportWrite d.fd outlen,
         Event.unlockEv d.lockBus] ∧
    ∀ r tr, i2cbus_xfer (some d) (some ob) outlen (some ib) inlen t T =
        IOResult.ok r tr →
      (∀ fd l, Event.transportRead fd l ∉ tr) ∧
      Event.unlockEv d.lockBus ∈ tr := by
  have hx : i2cbus_xfer (some d) (some ob) outlen (some ib) inlen t T =
      IOResult.ok T.writeRet
        [Event.lockBlocking d.lockBus, Event.transportWrite d.fd outlen,
         Event.unlockEv d.lockBus] := by
    simp [i2cbus_xfer, not_lt.mpr hfd, hlock, hshort]
  refine ⟨hx, ?_⟩
  intro r tr htr
  rw [hx] at htr
  injection htr with hr htrace
  subst htrace
  constructor
  · intro fd l
    simp
  · simp

/-- Witness for C2 at a concrete short write: outlen = 4 requested, the
transport writes only 2 bytes; no read happens and the lock is released. -/
theorem c2_witness :
    i2cbus_xfer (some ⟨3, 0, 0, 0⟩) (some []) 4 (some []) 2 0 ⟨0, 2, 2⟩ =
      IOResult.ok 2
        [Event.lockBlocking 0, Event.transportWrite 3 4, Event.unlockEv 0] ∧
    (∀ fd l, Event.transportRead fd l ∉
        ([Event.lockBlocking 0, Event.transportWrite 3 4,
          Event.unlockEv 0] : List Event)) ∧
    Event.unlockEv 0 ∈
      ([Event.lockBlocking 0, Event.transportWrite 3 4,
        Event.unlockEv 0] : List Event) := by
  have h := c2_short_write_skips_read_releases_lock ⟨3, 0, 0, 0⟩ [] [] 4 2 0
    ⟨0, 2, 2⟩ (by decide) (by decide) (by decide)
  exact ⟨h.1, h.2 2 _ h.1⟩

/-- Claim C3: in every transfer call whose write phase transfers the full
requested length, the trace is exactly lock, write, a sleep of
timeout_usec microseconds present if and only if timeout_usec > 0, read,
unlock — the whole write-then-delay-then-read sequence under one
uninterrupted hold of the BusSlot lock. -/
theorem c3_full_write_sleep_iff_then_read_one_hold
    (d : i2cbus) (ob ib : ByteBuf) (outlen inlen : Int) (t : Nat)
    (T : Transport) (hfd : 0 ≤ d.fd) (hlock : T.lockRet = 0)
    (hfull : T.writeRet = outlen) :
    i2cbus_xfer (some d) (some ob) outlen (some ib) inlen t T =
      IOResult.ok T.readRet
        ([Event.lockBlocking d.lockBus, Event.transportWrite d.fd outlen] ++
         (if 0 < t then [Event.sleepEv t] else []) ++
         [Event.transportRead d.fd inlen, Event.unlockEv d.lockBus]) ∧
    ∀ r tr, i2cbus_xfer (some d) (some ob) outlen (some ib) inlen t T =
        IOResult.ok r tr →
      (Event.sleepEv t ∈ tr ↔ 0 < t) := by
  have hx : i2cbus_xfer (some d) (some ob) outlen (some ib) inlen t T =
      IOResult.ok T.readRet
        ([Event.lockBlocking d.lockBus, Event.transportWrite d.fd outlen] ++
         (if 0 < t then [Event.sleepEv t] else []) ++
         [Event.transportRead d.fd inlen, Event.unlockEv d.lockBus]) := by
    simp [i2cbus_xfer, not_lt.mpr hfd, hlock, hfull]
  refine ⟨hx, ?_⟩
  intro r tr htr
  rw [hx] at htr
  injection htr with hr htrace
  subst htrace
  by_cases ht : 0 < t
  · simp [ht]
  · simp [ht]

/-- Witness for C3, instantiated both with timeout_usec = 0 (no sleep
event) and timeout_usec = 100 (one sleep event between write and read). -/
theorem c3_witness :
    i2cbus_xfer (some ⟨3, 0, 0, 0⟩) (some []) 4 (some []) 2 0 ⟨0, 4, 2⟩ =
      IOResult.ok 2 [Event.lockBlocking 0, Event.transportWrite 3 4,
        Event.transportRead 3 2, Event.unlockEv 0] ∧
    i2cbus_xfer (some ⟨3, 0, 0, 0⟩) (some []) 4 (some []) 2 100 ⟨0, 4, 2⟩ =
      IOResult.ok 2 [Event.lockBlocking 0, Event.transportWrite 3 4,
        Event.sleepEv 100, Event.transportRead 3 2, Event.unlockEv 0] := by
  have h0 := c3_full_write_sleep_iff_then_read_one_hold ⟨3, 0, 0, 0⟩ [] [] 4 2 0
    ⟨0, 4, 2⟩ (by decide) (by decide) (by decide)
  have h100 := c3_full_write_sleep_iff_then_read_one_hold ⟨3, 0, 0, 0⟩ [] [] 4 2 100
    ⟨0, 4, 2⟩ (by decide) (by decide) (by decide)
  exact ⟨by rw [h0.1]; decide, by rw [h100.1]; decide⟩

/-- Claim C5 (code evaluation at the failing input): a NULL handle does
NOT fail fast — the validation branch's diagnostic eprintf evaluates
dev->fd through the NULL pointer (i2cbus.c lines 166, 196, 229), which is
undefined behavior, not the clean -1 return the claim describes — whereas
the other two violation classes (negative transport fd, NULL buffer
pointer) do return -1 with no lock or transport event, exactly as
claimed. -/
theorem c5_null_handle_ub_not_fail_fast :
    i2cbus_write none (some []) 4 ⟨0, 4, 4⟩ = IOResult.nullDeref ∧
    i2cbus_read none (some []) 4 ⟨0, 4, 4⟩ = IOResult.nullDeref ∧
    i2cbus_xfer none (some []) 4 (some []) 2 0 ⟨0, 4, 2⟩ = IOResult.nullDeref ∧
    IOResult.nullDeref ≠ IOResult.ok (-1) [] ∧
    i2cbus_write (some (i2cbus.mk (-1) 0 0 0)) (some []) 4 ⟨0, 4, 4⟩ =
      IOResult.ok (-1) [] ∧
    i2cbus_read (some (i2cbus.mk (-1) 0 0 0)) (some []) 4 ⟨0, 4, 4⟩ =
      IOResult.ok (-1) [] ∧
    i2cbus_xfer (some (i2cbus.mk (-1) 0 0 0)) (some []) 4 (some []) 2 0 ⟨0, 4, 2⟩ =
      IOResult.ok (-1) [] ∧
    i2cbus_write (some (i2cbus.mk 3 0 0 0)) none 4 ⟨0, 4, 4⟩ =
      IOResult.ok (-1) [] ∧
    i2cbus_read (some (i2cbus.mk 3 0 0 0)) none 4 ⟨0, 4, 4⟩ =
      IOResult.ok (-1) [] ∧
    i2cbus_xfer (some (i2cbus.mk 3 0 0 0)) none 4 (some []) 2 0 ⟨0, 4, 2⟩ =
      IOResult.ok (-1) [] ∧
    i2cbus_xfer (some (i2cbus.mk 3 0 0 0)) (some []) 4 none 2 0 ⟨0, 4, 2⟩ =
      IOResult.ok (-1) [] := by
  decide

end I2C

namespace I2C

/-- Counterexample to claim C1: a write call on a handle whose context is
set (ctx = I2CBUS_CTX_0 = 0xa) performs a blocking acquire of the BusSlot
mutex (a pthread_mutex_lock event appears in its trace), refuting the
claim that such an operation attempts only a non-blocking acquire and
never block-acquires the mutex. -/
theorem c1_counterexample :
    ctx_valid (i2cbus.mk 3 0 0 0xa).ctx = true ∧
    i2cbus_write (some (i2cbus.mk 3 0 0 0xa)) (some []) 1 ⟨0, 1, 1⟩ =
      IOResult.ok 1
        [Event.lockBlocking 0, Event.transportWrite 3 1, Event.unlockEv 0] ∧
    Event.lockBlocking 0 ∈
      ([Event.lockBlocking 0, Event.transportWrite 3 1,
        Event.unlockEv 0] : List Event) := by
  decide

/-- Claim C1 amended: regardless of the handle's context, write, read and
transfer never attempt a non-blocking acquire (no trylock is ever
issued), and whenever the argument checks pass they block-acquire the
BusSlot mutex via pthread_mutex_lock; if that blocking acquire returns an
error, the operation returns -1 with no transport I/O performed (the
trace holds only the failed acquire); same-thread re-entry is instead
permitted by the mutex's recursive attribute. -/
theorem c1_io_ops_always_block_never_trylock
    (d : i2cbus) (buf ob ib : Option ByteBuf) (len ol il : Int) (t : Nat)
    (T : Transport) :
    issuesTry (i2cbus_write (some d) buf len T) = false ∧
    issuesTry (i2cbus_read (some d) buf len T) = false ∧
    issuesTry (i2cbus_xfer (some d) ob ol ib il t T) = false ∧
    (0 ≤ d.fd → buf ≠ none →
      (T.lockRet ≠ 0 →
        i2cbus_write (some d) buf len T =
          IOResult.ok (-1) [Event.lockBlocking d.lockBus] ∧
        i2cbus_read (some d) buf len T =
          IOResult.ok (-1) [Event.lockBlocking d.lockBus]) ∧
      (T.lockRet = 0 →
        i2cbus_write (some d) buf len T =
          IOResult.ok T.writeRet
            [Event.lockBlocking d.lockBus, Event.transportWrite d.fd len,
             Event.unlockEv d.lockBus] ∧
        i2cbus_read (some d) buf len T =
          IOResult.ok T.readRet
            [Event.lockBlocking d.lockBus, Event.transportRead d.fd len,
             Event.unlockEv d.lockBus])) ∧
    (0 ≤ d.fd → ob ≠ none → ib ≠ none →
      (T.lockRet ≠ 0 →
        i2cbus_xfer (some d) ob ol ib il t T =
          IOResult.ok (-1) [Event.lockBlocking d.lockBus]) ∧
      ∀ r tr, i2cbus_xfer (some d) ob ol ib il t T = IOResult.ok r tr →
        Event.lockBlocking d.lockBus ∈ tr) := by
  refine ⟨?_, ?_, ?_, ?_, ?_⟩
  · cases buf with
    | none => simp [i2cbus_write, issuesTry, hasTry]
    | some b =>
      simp only [i2cbus_write]
      split
      · simp [issuesTry, hasTry]
      · split <;> simp [issuesTry, hasTry]
  · cases buf with
    | none => simp [i2cbus_read, issuesTry, hasTry]
    | some b =>
      simp only [i2cbus_read]
      split
      · simp [issuesTry, hasTry]
      · split <;> simp [issuesTry, hasTry]
  · cases ob with
    | none => simp [i2cbus_xfer, issuesTry, hasTry]
    | some o =>
      cases ib with
      | none => simp [i2cbus_xfer, issuesTry, hasTry]
      | some i =>
        simp only [i2cbus_xfer]
        split
        · simp [issuesTry, hasTry]
        · split
          · simp [issuesTry, hasTry]
          · split
            · simp [issuesTry, hasTry]
            · split <;> simp [issuesTry, hasTry]
  · intro hfd hbuf
    rcases Option.ne_none_iff_exists.mp hbuf with ⟨b, rfl⟩
    constructor
    · intro hlk
      constructor <;>
        simp [i2cbus_write, i2cbus_read, if_neg (not_lt.mpr hfd), hlk]
    · intro hlk
      constructor <;>
        simp [i2cbus_write, i2cbus_read, if_neg (not_lt.mpr hfd), hlk]
  · intro hfd hob hib
    rcases Option.ne_none_iff_exists.mp hob with ⟨o, rfl⟩
    rcases Option.ne_none_iff_exists.mp hib with ⟨i, rfl⟩
    constructor
    · intro hlk
      simp [i2cbus_xfer, if_neg (not_lt.mpr hfd), hlk]
    · intro r tr htr
      simp only [i2cbus_xfer, if_neg (not_lt.mpr hfd)] at htr
      split at htr
      · injection htr with hr htrace
        subst htrace
        simp
      · split at htr
        · injection htr with hr htrace
          subst htrace
          simp
        · injection htr with hr htrace
          subst htrace
          simp

/-- Witness for C1 (amended) on a handle with a set context: no trylock
is issued, a failed blocking acquire (pthread error 22) yields -1 with
only the acquire in the trace and no transport I/O, and a successful
acquire yields the lock-write-unlock trace. -/
theorem c1_witness :
    issuesTry (i2cbus_write (some (i2cbus.mk 3 0 0 0xa)) (some []) 1 ⟨0, 1, 1⟩) = false ∧
    i2cbus_write (some (i2cbus.mk 3 0 0 0xa)) (some []) 1 ⟨22, 1, 1⟩ =
      IOResult.ok (-1) [Event.lockBlocking 0] ∧
    i2cbus_write (some (i2cbus.mk 3 0 0 0xa)) (some []) 1 ⟨0, 1, 1⟩ =
      IOResult.ok 1
        [Event.lockBlocking 0, Event.transportWrite 3 1, Event.unlockEv 0] := by
  have ha := c1_io_ops_always_block_never_trylock (i2cbus.mk 3 0 0 0xa)
    (some []) (some []) (some []) 1 4 2 0 ⟨0, 1, 1⟩
  have hb := c1_io_ops_always_block_never_trylock (i2cbus.mk 3 0 0 0xa)
    (some []) (some []) (some []) 1 4 2 0 ⟨22, 1, 1⟩
  exact ⟨ha.1, ((hb.2.2.2.1 (by decide) (by decide)).1 (by decide)).1,
    ((ha.2.2.2.1 (by decide) (by decide)).2 (by decide)).1⟩

/-- Claim C4 (code evaluation at the failing inputs): i2cbus_open returns
the same -1 for an out-of-range bus index (internal code -4), for a slave
address below 8 (internal code -5), and for a transport-open failure
(internal code -errno): the err label discards the distinct codes, so the
failure causes are not distinguishable in the returned value. -/
theorem c4_open_failures_collapse_to_neg_one :
    (i2cbus_open ⟨1, [⟨true, 0⟩, ⟨true, 0⟩]⟩ (some (i2cbus.mk (-1) (-1) 0 0)) 2 0x50
        ⟨true, 3, 0, true, 0⟩).2.2.1 = -1 ∧
    (i2cbus_open ⟨1, [⟨true, 0⟩, ⟨true, 0⟩]⟩ (some (i2cbus.mk (-1) (-1) 0 0)) 0 3
        ⟨true, 3, 0, true, 0⟩).2.2.1 = -1 ∧
    (i2cbus_open ⟨1, [⟨true, 0⟩, ⟨true, 0⟩]⟩ (some (i2cbus.mk (-1) (-1) 0 0)) 0 0x50
        ⟨true, -1, 2, true, 0⟩).2.2.1 = -1 := by
  decide

/-- Counterexample to claim C6: a successful open on a handle whose ctx
field happens to hold I2CBUS_CTX_0 = 0xa returns that handle with ctx
still 0xa — a set (valid) context, not "none" — because i2cbus_open never
writes the ctx field. -/
theorem c6_counterexample :
    (i2cbus_open ⟨1, [⟨true, 0⟩, ⟨true, 0⟩]⟩ (some (i2cbus.mk (-1) (-1) 0 0xa)) 1 0x50
        ⟨true, 3, 0, true, 0⟩).2.2.1 = 3 ∧
    (i2cbus_open ⟨1, [⟨true, 0⟩, ⟨true, 0⟩]⟩ (some (i2cbus.mk (-1) (-1) 0 0xa)) 1 0x50
        ⟨true, 3, 0, true, 0⟩).2.1 = some (i2cbus.mk 3 1 1 0xa) ∧
    ctx_valid 0xa = true := by
  decide

/-- Claim C6 amended: every successful open associates the handle with
the BusSlot for its bus index (dev->id = id and dev->lock =
&i2cbus_locks[id]) and returns the transport fd, but leaves the handle's
context field untouched: per the header, the caller must set ctx manually
after open. -/
theorem c6_open_assoc_slot_ctx_untouched
    (s : RegState) (d : i2cbus) (id addr : Int) (env : OpenEnv)
    (hmi : env.mutexInitOk = true) (hid : id < (I2CBUS_MAX_NUM : Int))
    (haddr : 8 ≤ addr) (hfd : 0 ≤ env.openFd) (hio : env.ioctlOk = true) :
    (i2cbus_open s (some d) id addr env).2.1 =
      some (i2cbus.mk env.openFd id id.toNat d.ctx) ∧
    (i2cbus_open s (some d) id addr env).2.2.1 = env.openFd := by
  by_cases h0 : s.initd = 0 <;>
    simp [i2cbus_open, h0, hmi, hid, not_lt.mpr haddr, not_lt.mpr hfd, hio]

/-- Witness for C6 (amended): a successful open with a pre-set ctx = 0xa
yields the handle bound to bus slot 1 with ctx still 0xa. -/
theorem c6_witness :
    (i2cbus_open ⟨1, [⟨true, 0⟩, ⟨true, 0⟩]⟩ (some (i2cbus.mk (-1) (-1) 0 0xa)) 1 0x50
        ⟨true, 3, 0, true, 0⟩).2.1 = some (i2cbus.mk 3 1 1 0xa) ∧
    (i2cbus_open ⟨1, [⟨true, 0⟩, ⟨true, 0⟩]⟩ (some (i2cbus.mk (-1) (-1) 0 0xa)) 1 0x50
        ⟨true, 3, 0, true, 0⟩).2.2.1 = 3 :=
  c6_open_assoc_slot_ctx_untouched ⟨1, [⟨true, 0⟩, ⟨true, 0⟩]⟩
    (i2cbus.mk (-1) (-1) 0 0xa) 1 0x50 ⟨true, 3, 0, true, 0⟩
    (by decide) (by decide) (by decide) (by decide) (by decide)

/-- Counterexample to claim C7: the explicit lock operation takes a bare
bus index and carries no context information at all; a call on a valid
bus index performs the blocking acquire and returns 1 (success), so it
does not fail with InvalidContext for callers without a configured
context. -/
theorem c7_counterexample :
    i2cbus_lock 0 0 = (1, [Event.lockBlocking 0]) ∧
    0 < (i2cbus_lock 0 0).1 := by
  decide

/-- Claim C7 amended: i2cbus_lock validates only the bus index: an index
at or above I2CBUS_MAX_NUM fails with -100 before the mutex is touched,
and any in-range index leads straight to the blocking acquire (returning
1 on success or the negated pthread error), with no context check of any
kind. -/
theorem c7_lock_checks_only_bus_index (bus : Nat) (r : Int) :
    (bus < I2CBUS_MAX_NUM →
      i2cbus_lock bus r =
        (if r = 0 then 1 else -r, [Event.lockBlocking bus])) ∧
    (I2CBUS_MAX_NUM ≤ bus → i2cbus_lock bus r = (-100, [])) := by
  constructor
  · intro h
    by_cases hr : r = 0 <;> simp [i2cbus_lock, not_le.mpr h, hr]
  · intro h
    simp [i2cbus_lock, h]

/-- Witness for C7 (amended): bus 0 with a successful pthread lock
acquires and returns 1; bus 2 is rejected with -100. -/
theorem c7_witness :
    i2cbus_lock 0 0 = (if (0 : Int) = 0 then 1 else -0, [Event.lockBlocking 0]) ∧
    i2cbus_lock 2 0 = (-100, []) :=
  ⟨(c7_lock_checks_only_bus_index 0 0).1 (by decide),
   (c7_lock_checks_only_bus_index 2 0).2 (by decide)⟩

end I2C

namespace I2C

/-- Destroying a fully unlocked mutex table succeeds and marks every
mutex uninitialized. -/
theorem destroyLoop_all_clear :
    ∀ l : List Mutex, (∀ m ∈ l, m.hold = 0) →
      destroyLoop l = (List.replicate l.length ⟨false, 0⟩, true)
  | [], _ => rfl
  | m :: rest, h => by
    have hm : m.hold = 0 := h m (List.mem_cons_self m rest)
    have ih := destroyLoop_all_clear rest (fun x hx => h x (List.mem_cons_of_mem m hx))
    simp [destroyLoop, hm, ih, List.replicate_succ]

/-- Counterexample to claim C8: a close that takes the use-count from 1
to 0 while BusSlot mutex 0 is still held returns -1 with an empty trace —
the transport fd of the handle is never closed (no transportCloseEv
event), and mutex 1 is left undestroyed — refuting the claim that the
teardown failure is non-fatal and the fd is still released. -/
theorem c8_counterexample :
    (i2cbus_close ⟨1, [⟨true, 1⟩, ⟨true, 0⟩]⟩ (some (i2cbus.mk 3 0 0 0)) 0).2.1 = -1 ∧
    (i2cbus_close ⟨1, [⟨true, 1⟩, ⟨true, 0⟩]⟩ (some (i2cbus.mk 3 0 0 0)) 0).2.2 = [] ∧
    (∃ m ∈ (i2cbus_close ⟨1, [⟨true, 1⟩, ⟨true, 0⟩]⟩ (some (i2cbus.mk 3 0 0 0)) 0).1.locks,
      m.initialized = true) := by
  decide

/-- Claim C8 amended: when a close transitions the use-count from 1 to 0,
the BusSlot mutexes are destroyed in index order; if every mutex is
unlocked the destruction succeeds completely and the handle's transport
fd is then released, but if any destruction fails the close returns -1 at
once — without destroying the remaining mutexes and without releasing the
handle's transport fd. -/
theorem c8_last_close_destroys_or_aborts
    (s : RegState) (d : i2cbus) (cr : Int) (hcount : s.initd = 1) :
    ((∀ m ∈ s.locks, m.hold = 0) → 0 < d.fd →
      i2cbus_close s (some d) cr =
        (⟨0, List.replicate s.locks.length ⟨false, 0⟩⟩, cr,
          [Event.transportCloseEv d.fd]) ∧
      ∀ m ∈ (i2cbus_close s (some d) cr).1.locks, m.initialized = false) ∧
    ((destroyLoop s.locks).2 = false →
      (i2cbus_close s (some d) cr).2.1 = -1 ∧
      (i2cbus_close s (some d) cr).2.2 = []) := by
  constructor
  · intro hz hfd
    have hd := destroyLoop_all_clear s.locks hz
    have hc : i2cbus_close s (some d) cr =
        (⟨0, List.replicate s.locks.length ⟨false, 0⟩⟩, cr,
          [Event.transportCloseEv d.fd]) := by
      simp [i2cbus_close, hcount, hd, i2cbus_close_dev, hfd]
    refine ⟨hc, ?_⟩
    rw [hc]
    intro m hm
    have := List.eq_of_mem_replicate hm
    rw [this]
  · intro hfail
    have hc : i2cbus_close s (some d) cr =
        (⟨0, (destroyLoop s.locks).1⟩, -1, []) := by
      simp [i2cbus_close, hcount, hfail]
    rw [hc]
    exact ⟨rfl, rfl⟩

/-- Witness for C8 (amended): with use-count 1 and both mutexes unlocked,
closing a handle with fd = 3 destroys both mutexes and closes fd 3; with
mutex 0 still held, the close returns -1 with no transport close. -/
theorem c8_witness :
    i2cbus_close ⟨1, [⟨true, 0⟩, ⟨true, 0⟩]⟩ (some (i2cbus.mk 3 0 0 0)) 0 =
      (⟨0, List.replicate ([⟨true, 0⟩, ⟨true, 0⟩] : List Mutex).length ⟨false, 0⟩⟩, 0,
        [Event.transportCloseEv 3]) ∧
    (i2cbus_close ⟨1, [⟨true, 1⟩, ⟨true, 0⟩]⟩ (some (i2cbus.mk 3 0 0 0)) 0).2.1 = -1 :=
  ⟨((c8_last_close_destroys_or_aborts ⟨1, [⟨true, 0⟩, ⟨true, 0⟩]⟩
      (i2cbus.mk 3 0 0 0) 0 rfl).1 (by decide) (by decide)).1,
   ((c8_last_close_destroys_or_aborts ⟨1, [⟨true, 1⟩, ⟨true, 0⟩]⟩
      (i2cbus.mk 3 0 0 0) 0 rfl).2 (by decide)).1⟩

/-- One successful open followed by one successful close restores the
use-count and keeps every mutex hold count at zero. -/
theorem openClose_preserves
    (s : RegState) (d : i2cbus) (id addr : Int) (env : OpenEnv)
    (hid : id < (I2CBUS_MAX_NUM : Int)) (haddr : 8 ≤ addr)
    (hmi : env.mutexInitOk = true) (hfd : 0 < env.openFd)
    (hio : env.ioctlOk = true) (hz : ∀ m ∈ s.locks, m.hold = 0) :
    (openClose s d id addr env 0).initd = s.initd ∧
    ∀ m ∈ (openClose s d id addr env 0).locks, m.hold = 0 := by
  by_cases h0 : s.initd = 0
  · have hopen : i2cbus_open s (some d) id addr env =
        (⟨s.initd + 1, List.replicate I2CBUS_MAX_NUM ⟨true, 0⟩⟩,
          some (i2cbus.mk env.openFd id id.toNat d.ctx), env.openFd,
          [Event.transportOpenEv id addr]) := by
      simp [i2cbus_open, h0, hmi, hid, not_lt.mpr haddr,
        not_lt.mpr (le_of_lt hfd), hio]
    have hdl : destroyLoop (List.replicate I2CBUS_MAX_NUM (⟨true, 0⟩ : Mutex)) =
        (List.replicate I2CBUS_MAX_NUM ⟨false, 0⟩, true) := by decide
    unfold openClose
    rw [hopen]
    simp [i2cbus_close, h0, hdl, i2cbus_close_dev, hfd]
  · have hopen : i2cbus_open s (some d) id addr env =
        ({ s with initd := s.initd + 1 },
          some (i2cbus.mk env.openFd id id.toNat d.ctx), env.openFd,
          [Event.transportOpenEv id addr]) := by
      simp [i2cbus_open, h0, hmi, hid, not_lt.mpr haddr,
        not_lt.mpr (le_of_lt hfd), hio]
    unfold openClose
    rw [hopen]
    have h1 : s.initd + 1 - 1 = s.initd := by ring
    simp [i2cbus_close, h1, h0, i2cbus_close_dev, hfd]
    exact hz

/-- Any number of open/close pairs preserves the use-count and keeps the
mutex table unlocked. -/
theorem iterOpenClose_preserves
    (d : i2cbus) (id addr : Int) (env : OpenEnv)
    (hid : id < (I2CBUS_MAX_NUM : Int)) (haddr : 8 ≤ addr)
    (hmi : env.mutexInitOk = true) (hfd : 0 < env.openFd)
    (hio : env.ioctlOk = true) :
    ∀ (N : Nat) (s : RegState), (∀ m ∈ s.locks, m.hold = 0) →
      (iterOpenClose d id addr env 0 N s).initd = s.initd ∧
      ∀ m ∈ (iterOpenClose d id addr env 0 N s).locks, m.hold = 0
  | 0, _, hz => ⟨rfl, hz⟩
  | n + 1, s, hz => by
    have hp := openClose_preserves s d id addr env hid haddr hmi hfd hio hz
    have ih := iterOpenClose_preserves d id addr env hid haddr hmi hfd hio n
      (openClose s d id addr env 0) hp.2
    exact ⟨ih.1.trans hp.1, ih.2⟩

/-- Claim C9: for every N ≥ 1, N sequential pairs of a successful open
(valid index and address, transport open yields a positive fd, ioctl
succeeds) immediately followed by a successful close (close() returning
0) leave the registry use-count at its pre-test value and every BusSlot
mutex unlocked (hold count 0). -/
theorem c9_open_close_pairs_idempotent
    (s : RegState) (d : i2cbus) (id addr : Int) (env : OpenEnv) (N : Nat)
    (_hN : 1 ≤ N) (hid : id < (I2CBUS_MAX_NUM : Int)) (haddr : 8 ≤ addr)
    (hmi : env.mutexInitOk = true) (hfd : 0 < env.openFd)
    (hio : env.ioctlOk = true) (hz : ∀ m ∈ s.locks, m.hold = 0) :
    (iterOpenClose d id addr env 0 N s).initd = s.initd ∧
    ∀ m ∈ (iterOpenClose d id addr env 0 N s).locks, m.hold = 0 :=
  iterOpenClose_preserves d id addr env hid haddr hmi hfd hio N s hz

/-- Witness for C9: three open/close pairs from the pristine state
(use-count 0, both mutexes uninitialized and unlocked) end with use-count
0 and both mutexes unlocked. -/
theorem c9_witness :
    (iterOpenClose (i2cbus.mk (-1) (-1) 0 0xa) 0 0x50 ⟨true, 3, 0, true, 0⟩ 0 3
        ⟨0, [⟨false, 0⟩, ⟨false, 0⟩]⟩).initd = (0 : Int) ∧
    ∀ m ∈ (iterOpenClose (i2cbus.mk (-1) (-1) 0 0xa) 0 0x50 ⟨true, 3, 0, true, 0⟩ 0 3
        ⟨0, [⟨false, 0⟩, ⟨false, 0⟩]⟩).locks, m.hold = 0 :=
  c9_open_close_pairs_idempotent ⟨0, [⟨false, 0⟩, ⟨false, 0⟩]⟩
    (i2cbus.mk (-1) (-1) 0 0xa) 0 0x50 ⟨true, 3, 0, true, 0⟩ 3
    (by decide) (by decide) (by decide) (by decide) (by decide) (by decide)
    (by decide)

/-- Claim C10: every close decrements the registry use-count before the
handle argument is validated: a close with a NULL handle still returns a
negative error (-3, or -1 if the teardown it triggered failed) yet the
use-count has been decremented, and when the decrement reaches 0 with all
mutexes unlocked the whole table is destroyed — all before the NULL check. -/
theorem c10_close_decrements_before_validation (s : RegState) (cr : Int) :
    (i2cbus_close s none cr).2.1 < 0 ∧
    (i2cbus_close s none cr).1.initd = s.initd - 1 ∧
    (s.initd = 1 → (∀ m ∈ s.locks, m.hold = 0) →
      ∀ m ∈ (i2cbus_close s none cr).1.locks, m.initialized = false) := by
  by_cases h0 : s.initd - 1 = 0
  · by_cases hok : (destroyLoop s.locks).2 = true
    · have hc : i2cbus_close s none cr =
          (⟨0, (destroyLoop s.locks).1⟩, -3, []) := by
        simp [i2cbus_close, h0, hok, i2cbus_close_dev]
      refine ⟨by rw [hc]; norm_num, by rw [hc, h0], ?_⟩
      intro h1 hz
      have hd := destroyLoop_all_clear s.locks hz
      have hc2 : i2cbus_close s none cr =
          (⟨0, List.replicate s.locks.length ⟨false, 0⟩⟩, -3, []) := by
        rw [hc, hd]
      rw [hc2]
      intro m hm
      have hm2 : m ∈ List.replicate s.locks.length (⟨false, 0⟩ : Mutex) := hm
      rw [List.eq_of_mem_replicate hm2]
    · have hfl : (destroyLoop s.locks).2 = false := by
        cases hh : (destroyLoop s.locks).2
        · rfl
        · exact absurd hh hok
      have hc : i2cbus_close s none cr =
          (⟨0, (destroyLoop s.locks).1⟩, -1, []) := by
        simp [i2cbus_close, h0, hfl]
      refine ⟨by rw [hc]; norm_num, by rw [hc, h0], ?_⟩
      intro h1 hz
      rw [destroyLoop_all_clear s.locks hz] at hfl
      simp at hfl
  · have hc : i2cbus_close s none cr =
        (⟨s.initd - 1, s.locks⟩, -3, []) := by
      simp [i2cbus_close, h0, i2cbus_close_dev]
    refine ⟨by rw [hc]; norm_num, by rw [hc], ?_⟩
    intro h1 hz
    exact absurd (by omega : s.initd - 1 = 0) h0

/-- Witness for C10: closing a NULL handle from use-count 1 with both
mutexes unlocked returns -3 and still decrements the count to 0,
destroying both mutexes. -/
theorem c10_witness :
    (i2cbus_close ⟨1, [⟨true, 0⟩, ⟨true, 0⟩]⟩ none 0).2.1 < 0 ∧
    (i2cbus_close ⟨1, [⟨true, 0⟩, ⟨true, 0⟩]⟩ none 0).1.initd = (1 : Int) - 1 ∧
    ∀ m ∈ (i2cbus_close ⟨1, [⟨true, 0⟩, ⟨true, 0⟩]⟩ none 0).1.locks,
      m.initialized = false :=
  ⟨(c10_close_decrements_before_validation ⟨1, [⟨true, 0⟩, ⟨true, 0⟩]⟩ 0).1,
   (c10_close_decrements_before_validation ⟨1, [⟨true, 0⟩, ⟨true, 0⟩]⟩ 0).2.1,
   (c10_close_decrements_before_validation ⟨1, [⟨true, 0⟩, ⟨true, 0⟩]⟩ 0).2.2
     rfl (by decide)⟩

end I2C
